import Mathlib

/-!
Shallow embedding of the WavPack decoder plugin's stream-adapter shim
(`WavpackInput` and the `wavpack_input_*` callbacks) and of the session
drivers (`wavpack_streamdecode`, `wavpack_filedecode`, `wavpack_scan_file`,
`wavpack_decode`), together with theorems checking the natural-language
specification of the adapter against this embedding.

Modelling conventions:
- the host `InputStream` is a finite byte sequence `content` with a read
  `offset`; `decoder_read` deterministically delivers
  `min requested (content.length - offset)` bytes, or `0` when the
  surrounding session has a pending command (cancellation);
- machine integers are `Nat`/`Int` with explicit reductions modulo `2^32`
  (`uint32_t`) and `2^64` (`size_t`) where the C code converts or wraps;
- C++ exceptions thrown by `InputStream::LockSeek` are modelled by an
  `Option CxxException` field of the stream state: `none` means the seek
  succeeds, `some e` means it throws `e`; a `catch (const
  std::runtime_error &)` clause handles `runtimeError` only, any other
  exception keeps propagating (`Except.error`).
-/

namespace Wavpack

/-- Sentinel used by the libwavpack pushback protocol (C `EOF`). -/
def EOF : Int := -1

/-- Modulus of the C `size_t` type (64-bit). -/
def SIZE_T_MOD : Nat := 2 ^ 64

/-- Modulus of the C `uint32_t` type. -/
def U32_MOD : Nat := 2 ^ 32

/-- Kinds of C++ exceptions the underlying source may throw during a seek:
either `std::runtime_error` (or a subclass), or anything else. -/
inductive CxxException where
  | runtimeError
  | otherException
deriving DecidableEq

/-- State of the host `InputStream` collaborator: remaining byte content,
current read offset, optionally-known total size, seekability, and what
`LockSeek` does when invoked. -/
structure InputStreamState where
  content : List Nat
  offset : Nat
  size : Option Nat
  seekable : Bool
  seekThrows : Option CxxException
deriving DecidableEq

/-- Embedding of `struct WavpackInput`: the decoder-client handle is
modelled by the one bit of it the adapter observes (whether a pending
decoder command makes `decoder_read` return 0), plus the input stream and
the `last_byte` pushback slot (`EOF` when empty). -/
structure WavpackInput where
  client_cancelled : Bool
  is : InputStreamState
  last_byte : Int
deriving DecidableEq

/-- Number of bytes a single `decoder_read(client, is, buf, bcount)` call
delivers: zero when a decoder command is pending (stop/cancellation) or at
end of stream, otherwise up to `bcount` of the remaining bytes. -/
def decoder_read_count (cancelled : Bool) (is : InputStreamState) (bcount : Nat) : Nat :=
  if cancelled then 0 else min bcount (is.content.length - is.offset)

/-- One step of the `while (bcount > 0)` loop of `WavpackInput::ReadBytes`,
fuelled for structural recursion (each successful read consumes at least
one byte of `content`, so `content.length + 1` fuel always suffices).
Returns the bytes read from the source and the advanced stream state. -/
def read_loop_fuel : Nat → Bool → InputStreamState → Nat → List Nat × InputStreamState
  | 0, _, is, _ => ([], is)
  | fuel + 1, cancelled, is, bcount =>
    if bcount = 0 then ([], is)
    else
      let nbytes := decoder_read_count cancelled is bcount
      if nbytes = 0 then ([], is)
      else
        let chunk := (is.content.drop is.offset).take nbytes
        let is1 := { is with offset := is.offset + nbytes }
        let r := read_loop_fuel fuel cancelled is1 (bcount - nbytes)
        (chunk ++ r.1, r.2)

/-- The read loop of `WavpackInput::ReadBytes` with sufficient fuel. -/
def read_loop (cancelled : Bool) (is : InputStreamState) (bcount : Nat) : List Nat × InputStreamState :=
  read_loop_fuel (is.content.length + 1) cancelled is bcount

/-- Interpretation of a nonnegative accumulator as the C `int32_t` return
value of `ReadBytes` (two's-complement wrap). -/
def int32_of_nat (n : Nat) : Int :=
  if n % U32_MOD < 2 ^ 31 then ((n % U32_MOD : Nat) : Int)
  else ((n % U32_MOD : Nat) : Int) - (U32_MOD : Int)

/-- Embedding of `WavpackInput::ReadBytes(void *data, size_t bcount)`.
Returns the `int32_t` result `i`, the bytes written to `data` in order,
and the new adapter state.  `bcount` is the `size_t` value of the count
(the callback passes an `int32_t`); when the pushback byte is replayed the
code does `--bcount`, which on `bcount = 0` wraps around `size_t`. -/
def WavpackInput.ReadBytes (w : WavpackInput) (bcount : Nat) :
    Int × List Nat × WavpackInput :=
  if w.last_byte ≠ EOF then
    -- *buf++ = last_byte; last_byte = EOF; --bcount; ++i; then the loop
    -- runs on the decremented (wrapping) size_t count
    (int32_of_nat
       (1 + (read_loop w.client_cancelled w.is
               ((bcount + (SIZE_T_MOD - 1)) % SIZE_T_MOD)).1.length),
     w.last_byte.toNat ::
       (read_loop w.client_cancelled w.is
         ((bcount + (SIZE_T_MOD - 1)) % SIZE_T_MOD)).1,
     { w with
        last_byte := EOF
        is := (read_loop w.client_cancelled w.is
               ((bcount + (SIZE_T_MOD - 1)) % SIZE_T_MOD)).2 })
  else
    (int32_of_nat (read_loop w.client_cancelled w.is bcount).1.length,
     (read_loop w.client_cancelled w.is bcount).1,
     { w with is := (read_loop w.client_cancelled w.is bcount).2 })

/-- Embedding of `wavpack_input_get_pos`: the stream offset (a 64-bit
`offset_type`) converted to the callback's `uint32_t` return type. -/
def wavpack_input_get_pos (w : WavpackInput) : Nat :=
  w.is.offset % U32_MOD

/-- Embedding of `wavpack_input_get_length`: 0 when the size is unknown,
otherwise the 64-bit size converted to the callback's `uint32_t`. -/
def wavpack_input_get_length (w : WavpackInput) : Nat :=
  match w.is.size with
  | none => 0
  | some sz => sz % U32_MOD

/-- Embedding of `wavpack_input_can_seek`. -/
def wavpack_input_can_seek (w : WavpackInput) : Bool :=
  w.is.seekable

/-- Embedding of `wavpack_input_push_back_byte`: stores `c` and returns it
when the slot holds `EOF`, otherwise returns `EOF` leaving the state
untouched. -/
def wavpack_input_push_back_byte (w : WavpackInput) (c : Int) : Int × WavpackInput :=
  if w.last_byte = EOF then (c, { w with last_byte := c })
  else (EOF, w)

/-- Embedding of `InputStream::LockSeek`: either moves the offset to the
target or throws the configured exception. -/
def LockSeek (is : InputStreamState) (target : Int) : Except CxxException InputStreamState :=
  match is.seekThrows with
  | none => Except.ok { is with offset := target.toNat }
  | some e => Except.error e

/-- Embedding of `wavpack_input_set_pos_abs`: `try { LockSeek(pos); return 0; }
catch (const std::runtime_error &) { return -1; }`.  An exception that is
not a `std::runtime_error` is not matched by the catch clause and keeps
propagating (`Except.error`). -/
def wavpack_input_set_pos_abs (w : WavpackInput) (pos : Nat) :
    Except CxxException (Int × WavpackInput) :=
  match LockSeek w.is (pos : Int) with
  | Except.ok is1 => Except.ok (0, { w with is := is1 })
  | Except.error CxxException.runtimeError => Except.ok (-1, w)
  | Except.error e => Except.error e

/-- C `SEEK_SET` constant. -/
def SEEK_SET : Int := 0

/-- C `SEEK_CUR` constant. -/
def SEEK_CUR : Int := 1

/-- C `SEEK_END` constant. -/
def SEEK_END : Int := 2

/-- Embedding of `wavpack_input_set_pos_rel`: the `switch (mode)` computes
the absolute target (returning -1 early for `SEEK_END` with unknown size
and for an invalid mode), then the same try/catch around `LockSeek` as in
`wavpack_input_set_pos_abs`.  The early returns are modelled by the inner
`Except (Int × WavpackInput) Int` value. -/
def wavpack_input_set_pos_rel (w : WavpackInput) (delta : Int) (mode : Int) :
    Except CxxException (Int × WavpackInput) :=
  let is := w.is
  let target : Except (Int × WavpackInput) Int :=
    if mode = SEEK_SET then Except.ok delta
    else if mode = SEEK_CUR then Except.ok (delta + (is.offset : Int))
    else if mode = SEEK_END then
      match is.size with
      | none => Except.error (-1, w)
      | some sz => Except.ok (delta + (sz : Int))
    else Except.error (-1, w)
  match target with
  | Except.error r => Except.ok r
  | Except.ok off =>
    match LockSeek w.is off with
    | Except.ok is1 => Except.ok (0, { w with is := is1 })
    | Except.error CxxException.runtimeError => Except.ok (-1, w)
    | Except.error e => Except.error e

/-- Resource events of a session driver: acquisition and release of the
decoding-library handle (`WavpackOpenFileInput*` / `WavpackCloseFile`). -/
inductive SessionEvent where
  | openHandle
  | closeHandle
deriving DecidableEq

/-- Embedding of `wavpack_open_wvc`: returns `none` ("no companion") when
the URI is null or when `client.OpenUri` fails, otherwise the opened
companion stream.  As in the source, the candidate companion URL
`uri + "c"` is computed but the `OpenUri` call passes `uri` itself.
The `openUri` parameter models `DecoderClient::OpenUri`, with `none`
standing for a thrown-and-caught `std::runtime_error`. -/
def wavpack_open_wvc (openUri : String → Option InputStreamState)
    (uri : Option String) : Option InputStreamState :=
  match uri with
  | none => none
  | some u =>
    let wvc_url := u ++ "c"
    -- try { return client.OpenUri(uri); } catch (...) { return nullptr; }
    -- NB: the argument is `u`, not `wvc_url`, exactly as in the source.
    let _ := wvc_url
    openUri u

/-- Decidable equality for `Except`, needed to evaluate concrete session
outcomes. -/
instance {ε α : Type} [DecidableEq ε] [DecidableEq α] : DecidableEq (Except ε α) := fun x y =>
  match x, y with
  | Except.ok a, Except.ok b =>
    if h : a = b then isTrue (by rw [h])
    else isFalse (by intro hc; cases hc; exact h rfl)
  | Except.error a, Except.error b =>
    if h : a = b then isTrue (by rw [h])
    else isFalse (by intro hc; cases hc; exact h rfl)
  | Except.ok _, Except.error _ => isFalse (by intro hc; cases hc)
  | Except.error _, Except.ok _ => isFalse (by intro hc; cases hc)

/-- Outcome of running `wavpack_streamdecode` up to and including the
decode call: whether the run dereferenced the still-null `wvc` unique_ptr
(undefined behaviour, modelled as a crash), the `can_seek` value passed to
`wavpack_decode` (when that point is reached), the handle events, and the
session result. -/
structure StreamDecodeRun where
  crashed : Bool
  can_seek : Option Bool
  events : List SessionEvent
  result : Except Unit Unit
deriving DecidableEq

/-- Embedding of `wavpack_streamdecode`.  `openOk` models whether
`WavpackOpenFileInputEx` succeeds (on failure `WavpackOpenInput` throws,
so no handle exists and nothing is closed); `decodeOutcome` models
`wavpack_decode`, which may return normally or throw.  The
`AtScopeExit(wpc) { WavpackCloseFile(wpc); }` guard runs on both of those
paths.  When the companion stream opens, the source executes
`can_seek &= wvc->is.IsSeekable();` while `wvc` is still the
default-constructed (null) `unique_ptr` — the `wvc.reset(...)` call comes
one line later — which is a null dereference, modelled as a crash. -/
def wavpack_streamdecode (openUri : String → Option InputStreamState)
    (is : InputStreamState) (uri : Option String)
    (openOk : Bool) (decodeOutcome : Except Unit Unit) : StreamDecodeRun :=
  let can_seek := is.seekable
  match wavpack_open_wvc openUri uri with
  | some _ =>
    { crashed := true, can_seek := none, events := [], result := Except.error () }
  | none =>
    if openOk then
      { crashed := false, can_seek := some can_seek,
        events := [SessionEvent.openHandle, SessionEvent.closeHandle],
        result := decodeOutcome }
    else
      { crashed := false, can_seek := none, events := [],
        result := Except.error () }

/-- Embedding of `wavpack_filedecode`: open the handle from the path
(throwing on failure), guard it with `AtScopeExit`, run `wavpack_decode`.
Returns the handle events and the session result. -/
def wavpack_filedecode_run (openOk : Bool) (decodeOutcome : Except Unit Unit) :
    List SessionEvent × Except Unit Unit :=
  if openOk then
    ([SessionEvent.openHandle, SessionEvent.closeHandle], decodeOutcome)
  else
    ([], Except.error ())

/-- Embedding of `wavpack_scan_file`: open the handle (throwing on
failure), guard it with `AtScopeExit`, read the duration, return true. -/
def wavpack_scan_file_run (openOk : Bool) :
    List SessionEvent × Except Unit Bool :=
  if openOk then
    ([SessionEvent.openHandle, SessionEvent.closeHandle], Except.ok true)
  else
    ([], Except.error ())

/-- Host commands observed by the decode loop (`DecoderCommand`). -/
inductive DecoderCommand where
  | NONE
  | STOP
  | SEEK
deriving DecidableEq

/-- Observable interactions of the decode loop with the host client. -/
inductive DecodeEvent where
  | submitData (samples : Nat)
  | commandFinished
  | seekError
deriving DecidableEq

/-- Seek handling at the top of a `wavpack_decode` loop iteration: when
the pending command is SEEK, either `WavpackSeekSample` succeeds
(`CommandFinished`) or fails (`SeekError`); without seekability the seek
is refused immediately (`SeekError`). -/
def seek_handling (can_seek seekOk : Bool) (cmd : DecoderCommand) : List DecodeEvent :=
  if cmd = DecoderCommand.SEEK then
    if can_seek then
      if seekOk then [DecodeEvent.commandFinished] else [DecodeEvent.seekError]
    else [DecodeEvent.seekError]
  else []

/-- Embedding of the `while (cmd != DecoderCommand::STOP)` loop of
`wavpack_decode`: `batches` is the sequence of `WavpackUnpackSamples`
results the library stub yields (an exhausted list behaves like a zero
batch), and `cmds` the sequence of commands returned by successive
`client.SubmitData` calls (further calls return NONE).  Produces the list
of host interactions, in order. -/
def wavpack_decode_loop (can_seek seekOk : Bool) :
    DecoderCommand → List Nat → List DecoderCommand → List DecodeEvent
  | cmd, [], _ =>
    if cmd = DecoderCommand.STOP then [] else seek_handling can_seek seekOk cmd
  | cmd, n :: rest, cmds =>
    if cmd = DecoderCommand.STOP then []
    else if n = 0 then seek_handling can_seek seekOk cmd
    else
      seek_handling can_seek seekOk cmd ++
        DecodeEvent.submitData n ::
          wavpack_decode_loop can_seek seekOk (cmds.headD DecoderCommand.NONE)
            rest cmds.tail

/-! Concrete fixtures used by counterexamples and witnesses. -/

/-- A two-byte seekable source at offset 0. -/
def sampleStream : InputStreamState :=
  { content := [7, 8], offset := 0, size := some 2,
    seekable := true, seekThrows := none }

/-- Adapter over `sampleStream` whose pushback slot holds the byte 5. -/
def sampleInput : WavpackInput :=
  { client_cancelled := false, is := sampleStream, last_byte := 5 }

/-- Adapter over `sampleStream` with an empty pushback slot. -/
def emptySlotInput : WavpackInput :=
  { client_cancelled := false, is := sampleStream, last_byte := EOF }

/-- Primary stream fixture for the session-driver claims (seekable). -/
def primStream : InputStreamState :=
  { content := [], offset := 0, size := some 0,
    seekable := true, seekThrows := none }

/-- Companion stream fixture (non-seekable). -/
def compStream : InputStreamState :=
  { content := [], offset := 0, size := some 0,
    seekable := false, seekThrows := none }

/-- Adapter whose source throws a non-`std::runtime_error` exception on
seek. -/
def otherThrowInput : WavpackInput :=
  { client_cancelled := false,
    is := { content := [], offset := 0, size := some 0,
            seekable := true, seekThrows := some CxxException.otherException },
    last_byte := EOF }

/-- Adapter whose source throws a `std::runtime_error` on seek. -/
def runtimeThrowInput : WavpackInput :=
  { client_cancelled := false,
    is := { content := [], offset := 0, size := some 0,
            seekable := true, seekThrows := some CxxException.runtimeError },
    last_byte := EOF }

/-- Adapter over a source whose total size is unknown. -/
def unknownSizeInput : WavpackInput :=
  { client_cancelled := false,
    is := { content := [7, 8], offset := 1, size := none,
            seekable := false, seekThrows := none },
    last_byte := EOF }

/-- Adapter whose source sits beyond the 32-bit boundary: offset
`2^32 + 5`, known size `2^32 + 7`. -/
def hugeOffsetInput : WavpackInput :=
  { client_cancelled := false,
    is := { content := [], offset := 2 ^ 32 + 5, size := some (2 ^ 32 + 7),
            seekable := true, seekThrows := none },
    last_byte := EOF }

/-! Helper lemmas about the read loop and the integer conversions. -/

/-- The read loop returns immediately (with the state untouched) when the
remaining count is zero or `decoder_read` delivers nothing, whatever the
fuel. -/
theorem read_loop_fuel_stop (fuel : Nat) (c : Bool) (is : InputStreamState) (bcount : Nat)
    (h : bcount = 0 ∨ decoder_read_count c is bcount = 0) :
    read_loop_fuel fuel c is bcount = ([], is) := by
  cases fuel with
  | zero => rfl
  | succ f =>
    rcases h with h | h
    · simp [read_loop_fuel, h]
    · simp [read_loop_fuel, h]

/-- With the deterministic `decoder_read` model, the read loop delivers
exactly `decoder_read_count` bytes taken in order from the current offset
and advances the offset by that amount. -/
theorem read_loop_eq (c : Bool) (is : InputStreamState) (bcount : Nat)
    (h : is.offset ≤ is.content.length) :
    read_loop c is bcount =
      ((is.content.drop is.offset).take (decoder_read_count c is bcount),
       { is with offset := is.offset + decoder_read_count c is bcount }) := by
  have heta : ∀ (s : InputStreamState), { s with offset := s.offset } = s := fun s => rfl
  unfold read_loop
  rw [read_loop_fuel]
  by_cases hb : bcount = 0
  · have hn : decoder_read_count c is bcount = 0 := by
      unfold decoder_read_count
      split <;> omega
    subst hb
    rw [hn]
    simp
  · rw [if_neg hb]
    by_cases hn : decoder_read_count c is bcount = 0
    · simp [hn]
    · rw [if_neg hn]
      have hstop : read_loop_fuel is.content.length c
          { is with offset := is.offset + decoder_read_count c is bcount }
          (bcount - decoder_read_count c is bcount) = ([],
            { is with offset := is.offset + decoder_read_count c is bcount }) := by
        apply read_loop_fuel_stop
        unfold decoder_read_count at hn ⊢
        split at hn
        · omega
        · split
          · omega
          · simp only [InputStreamState.mk.injEq]
            omega
      simp only [hstop, List.append_nil]

/-- The read loop with a zero count returns immediately. -/
theorem read_loop_stop (c : Bool) (is : InputStreamState) :
    read_loop c is 0 = ([], is) :=
  read_loop_fuel_stop _ _ _ _ (Or.inl rfl)

/-- Bytes delivered by the deterministic read never exceed the request. -/
theorem decoder_read_count_le (c : Bool) (is : InputStreamState) (bcount : Nat) :
    decoder_read_count c is bcount ≤ bcount := by
  unfold decoder_read_count
  split <;> omega

/-- Bytes delivered by the deterministic read never exceed what remains. -/
theorem decoder_read_count_le_avail (c : Bool) (is : InputStreamState) (bcount : Nat) :
    decoder_read_count c is bcount ≤ is.content.length - is.offset := by
  unfold decoder_read_count
  split <;> omega

/-- Small nonnegative accumulators are returned unchanged by the
`int32_t` conversion. -/
theorem int32_of_nat_small (n : Nat) (h : n < 2 ^ 31) : int32_of_nat n = (n : Int) := by
  unfold int32_of_nat U32_MOD
  have h2 : n % 2 ^ 32 = n := Nat.mod_eq_of_lt (by omega)
  rw [h2, if_pos h]

/-- The wrapped decrement of a positive `size_t` is the plain decrement. -/
theorem size_t_decrement (b : Nat) (h1 : 1 ≤ b) (h64 : b < SIZE_T_MOD) :
    (b + (SIZE_T_MOD - 1)) % SIZE_T_MOD = b - 1 := by
  have hm : 0 < SIZE_T_MOD := by unfold SIZE_T_MOD; positivity
  have : b + (SIZE_T_MOD - 1) = (b - 1) + 1 * SIZE_T_MOD := by omega
  rw [this, Nat.add_mul_mod_self_right]
  exact Nat.mod_eq_of_lt (by omega)

/-- Claim C1, counterexample: `ReadBytes` called with `count = 0` while a
pushed-back byte is buffered writes three bytes into the zero-length
request and returns 3.  The `--bcount` on the `size_t` count wraps to
`2^64 - 1`, so the loop drains the remaining source instead of writing at
most `count` bytes; this refutes the claim as stated for `count = 0`. -/
theorem readBytes_count_zero_cex :
    (sampleInput.ReadBytes 0).2.1.length = 3 ∧
    (sampleInput.ReadBytes 0).2.1 = [5, 7, 8] ∧
    (sampleInput.ReadBytes 0).1 = 3 ∧
    (0 : Nat) < (sampleInput.ReadBytes 0).2.1.length := by decide

/-- Claim C1 (amended to `count >= 1`): for every adapter state and every
`1 <= count <= 2^31 - 1` (the callback passes an `int32_t`), `ReadBytes`
returns exactly the number of bytes written, which is nonnegative and at
most `count`; a buffered pushback byte is written first and the slot is
cleared; the rest of the output is taken in order from the source; and the
result is short of `count` only when the session is cancelled or the
source is exhausted. -/
theorem ReadBytes_exact_fill (w : WavpackInput) (bcount : Nat)
    (h1 : 1 ≤ bcount) (h2 : bcount ≤ 2 ^ 31 - 1)
    (hoff : w.is.offset ≤ w.is.content.length) :
    (w.ReadBytes bcount).1 = ((w.ReadBytes bcount).2.1.length : Int) ∧
    0 ≤ (w.ReadBytes bcount).1 ∧
    (w.ReadBytes bcount).2.1.length ≤ bcount ∧
    (w.last_byte ≠ EOF → (w.ReadBytes bcount).2.1.head? = some w.last_byte.toNat) ∧
    (w.ReadBytes bcount).2.2.last_byte = EOF ∧
    ((w.ReadBytes bcount).1 < (bcount : Int) →
      w.client_cancelled = true ∨
        (w.ReadBytes bcount).2.2.is.offset = w.is.content.length) ∧
    (w.ReadBytes bcount).2.1 =
      (if w.last_byte = EOF then [] else [w.last_byte.toNat]) ++
        (w.is.content.drop w.is.offset).take
          ((w.ReadBytes bcount).2.1.length - (if w.last_byte = EOF then 0 else 1)) := by
  have hlen : (w.is.content.drop w.is.offset).length
      = w.is.content.length - w.is.offset := by
    simp [List.length_drop]
  by_cases hlb : w.last_byte = EOF
  · -- empty pushback slot: plain loop over the source
    have hr : w.ReadBytes bcount =
        (int32_of_nat ((w.is.content.drop w.is.offset).take
            (decoder_read_count w.client_cancelled w.is bcount)).length,
         (w.is.content.drop w.is.offset).take
           (decoder_read_count w.client_cancelled w.is bcount),
         { w with is := { w.is with
             offset := w.is.offset + decoder_read_count w.client_cancelled w.is bcount } }) := by
      unfold WavpackInput.ReadBytes
      rw [if_neg (not_not_intro hlb), read_loop_eq _ _ _ hoff]
    set n := decoder_read_count w.client_cancelled w.is bcount with hn
    have hnb : n ≤ bcount := decoder_read_count_le _ _ _
    have hna : n ≤ w.is.content.length - w.is.offset := decoder_read_count_le_avail _ _ _
    have htk : ((w.is.content.drop w.is.offset).take n).length = n := by
      rw [List.length_take, hlen]
      omega
    have hi32 : int32_of_nat n = (n : Int) := int32_of_nat_small n (by omega)
    rw [hr]
    dsimp only
    rw [htk]
    refine ⟨hi32, by rw [hi32]; exact_mod_cast Nat.zero_le n, hnb,
      fun hc => absurd hlb hc, hlb, ?_, ?_⟩
    · intro hshort
      rw [hi32] at hshort
      have hsh : n < bcount := by exact_mod_cast hshort
      unfold decoder_read_count at hn
      by_cases hcc : w.client_cancelled = true
      · exact Or.inl hcc
      · right
        rw [if_neg hcc] at hn
        omega
    · simp [hlb]
  · -- buffered pushback byte: it is replayed first, then the decremented
    -- count is filled from the source
    have hb1 : (bcount + (SIZE_T_MOD - 1)) % SIZE_T_MOD = bcount - 1 :=
      size_t_decrement bcount h1 (by unfold SIZE_T_MOD; omega)
    have hr : w.ReadBytes bcount =
        (int32_of_nat (1 + ((w.is.content.drop w.is.offset).take
            (decoder_read_count w.client_cancelled w.is (bcount - 1))).length),
         w.last_byte.toNat ::
           (w.is.content.drop w.is.offset).take
             (decoder_read_count w.client_cancelled w.is (bcount - 1)),
         { w with last_byte := EOF, is := { w.is with
             offset := w.is.offset + decoder_read_count w.client_cancelled w.is (bcount - 1) } }) := by
      unfold WavpackInput.ReadBytes
      rw [if_pos hlb, hb1, read_loop_eq _ _ _ hoff]
    set n := decoder_read_count w.client_cancelled w.is (bcount - 1) with hn
    have hnb : n ≤ bcount - 1 := decoder_read_count_le _ _ _
    have hna : n ≤ w.is.content.length - w.is.offset := decoder_read_count_le_avail _ _ _
    have htk : ((w.is.content.drop w.is.offset).take n).length = n := by
      rw [List.length_take, hlen]
      omega
    have hi32 : int32_of_nat (1 + n) = ((1 + n : Nat) : Int) :=
      int32_of_nat_small (1 + n) (by omega)
    rw [hr]
    dsimp only
    rw [htk, List.length_cons, htk]
    refine ⟨by rw [hi32]; push_cast; ring, by rw [hi32]; exact_mod_cast Nat.zero_le (1 + n),
      by omega, fun _ => rfl, rfl, ?_, ?_⟩
    · intro hshort
      rw [hi32] at hshort
      have hsh : 1 + n < bcount := by exact_mod_cast hshort
      unfold decoder_read_count at hn
      by_cases hcc : w.client_cancelled = true
      · exact Or.inl hcc
      · right
        rw [if_neg hcc] at hn
        omega
    · simp [hlb]

/-- Witness for `ReadBytes_exact_fill` at a concrete adapter state with an
occupied pushback slot and `count = 2`. -/
theorem ReadBytes_exact_fill_witness :
    (sampleInput.ReadBytes 2).1 = ((sampleInput.ReadBytes 2).2.1.length : Int) ∧
    0 ≤ (sampleInput.ReadBytes 2).1 ∧
    (sampleInput.ReadBytes 2).2.1.length ≤ 2 ∧
    (sampleInput.last_byte ≠ EOF →
      (sampleInput.ReadBytes 2).2.1.head? = some sampleInput.last_byte.toNat) ∧
    (sampleInput.ReadBytes 2).2.2.last_byte = EOF ∧
    ((sampleInput.ReadBytes 2).1 < (2 : Int) →
      sampleInput.client_cancelled = true ∨
        (sampleInput.ReadBytes 2).2.2.is.offset = sampleInput.is.content.length) ∧
    (sampleInput.ReadBytes 2).2.1 =
      (if sampleInput.last_byte = EOF then [] else [sampleInput.last_byte.toNat]) ++
        (sampleInput.is.content.drop sampleInput.is.offset).take
          ((sampleInput.ReadBytes 2).2.1.length -
            (if sampleInput.last_byte = EOF then 0 else 1)) :=
  ReadBytes_exact_fill sampleInput 2 (by decide) (by decide) (by decide)

/-- Claim C2, code bug: when the companion stream opens successfully, the
session driver executes `can_seek &= wvc->is.IsSeekable();` while `wvc` is
still the default-constructed null `unique_ptr` (the `wvc.reset(...)` call
comes one line later), so instead of computing the AND of the two streams'
seekability the run dereferences a null pointer (modelled as `crashed`).
When the companion cannot be opened, the driver does proceed with
`can_seek` from the primary stream alone and the session completes without
error, as the claim's failure scenario requires. -/
theorem streamdecode_null_wvc_deref :
    (wavpack_streamdecode (fun _ => some compStream) primStream (some "a.wv")
        true (Except.ok ())).crashed = true ∧
    (wavpack_streamdecode (fun _ => some compStream) primStream (some "a.wv")
        true (Except.ok ())).can_seek = none ∧
    (wavpack_streamdecode (fun _ => none) primStream (some "a.wv")
        true (Except.ok ())).crashed = false ∧
    (wavpack_streamdecode (fun _ => none) primStream (some "a.wv")
        true (Except.ok ())).can_seek = some primStream.seekable ∧
    (wavpack_streamdecode (fun _ => none) primStream (some "a.wv")
        true (Except.ok ())).result = Except.ok () := by
  refine ⟨rfl, rfl, rfl, rfl, rfl⟩

/-- Claim C3: pushing a byte while the pushback slot is occupied returns
the rejected sentinel `EOF` and leaves the whole adapter state — in
particular the previously stored byte — unchanged. -/
theorem push_back_byte_occupied_rejects (w : WavpackInput) (c : Int)
    (h : w.last_byte ≠ EOF) :
    wavpack_input_push_back_byte w c = (EOF, w) := by
  unfold wavpack_input_push_back_byte
  rw [if_neg h]

/-- Witness for `push_back_byte_occupied_rejects`: the slot holds 5, a
second push-back of 9 is rejected and the state is untouched. -/
theorem push_back_byte_occupied_rejects_witness :
    wavpack_input_push_back_byte sampleInput 9 = (EOF, sampleInput) :=
  push_back_byte_occupied_rejects sampleInput 9 (by decide)

/-- Claim C4: with an empty pushback slot, `PushBackByte(b)` for a byte
`b` in 0..255 stores `b` and returns it, and an immediately following
`ReadBytes` of length 1 returns count 1 with exactly the byte `b`,
restoring the original adapter state (slot empty again, source untouched). -/
theorem push_back_then_read_roundtrip (w : WavpackInput) (b : Int)
    (hb0 : 0 ≤ b) (hb : b ≤ 255) (h : w.last_byte = EOF) :
    (wavpack_input_push_back_byte w b).1 = b ∧
    (wavpack_input_push_back_byte w b).2.last_byte = b ∧
    (wavpack_input_push_back_byte w b).2.ReadBytes 1 = (1, [b.toNat], w) := by
  have hbne : ¬(b = EOF) := by
    unfold EOF
    omega
  have hpush : wavpack_input_push_back_byte w b = (b, { w with last_byte := b }) := by
    unfold wavpack_input_push_back_byte
    rw [if_pos h]
  rw [hpush]
  dsimp only
  refine ⟨rfl, rfl, ?_⟩
  unfold WavpackInput.ReadBytes
  dsimp only
  rw [if_pos hbne]
  have hz : (1 + (SIZE_T_MOD - 1)) % SIZE_T_MOD = 0 := by
    unfold SIZE_T_MOD
    omega
  rw [hz, read_loop_stop]
  dsimp only
  rw [← h]
  rfl

/-- Witness for `push_back_then_read_roundtrip` at byte 42 over an
adapter with an empty slot. -/
theorem push_back_then_read_roundtrip_witness :
    (wavpack_input_push_back_byte emptySlotInput 42).1 = 42 ∧
    (wavpack_input_push_back_byte emptySlotInput 42).2.last_byte = 42 ∧
    (wavpack_input_push_back_byte emptySlotInput 42).2.ReadBytes 1
      = (1, [(42 : Int).toNat], emptySlotInput) :=
  push_back_then_read_roundtrip emptySlotInput 42 (by decide) (by decide) (by decide)

/-- Claim C5, counterexample: the seek handlers catch only
`const std::runtime_error &`; an exception of any other type thrown by
`LockSeek` passes through both `wavpack_input_set_pos_abs` and
`wavpack_input_set_pos_rel` uncaught, refuting the claim that no
exception ever propagates through the callback interface. -/
theorem seek_other_exception_escapes :
    wavpack_input_set_pos_abs otherThrowInput 3
      = Except.error CxxException.otherException ∧
    wavpack_input_set_pos_rel otherThrowInput 3 SEEK_SET
      = Except.error CxxException.otherException := by
  refine ⟨rfl, rfl⟩

/-- Helper: the absolute-seek callback never lets an exception escape as
long as the source throws only `std::runtime_error`. -/
theorem set_pos_abs_no_other (w : WavpackInput) (pos : Nat)
    (h : w.is.seekThrows ≠ some CxxException.otherException) :
    ∃ r, wavpack_input_set_pos_abs w pos = Except.ok r := by
  unfold wavpack_input_set_pos_abs LockSeek
  rcases hst : w.is.seekThrows with _ | e
  · exact ⟨_, rfl⟩
  · cases e
    · exact ⟨_, rfl⟩
    · exact absurd hst h

/-- Helper: the relative-seek callback never lets an exception escape as
long as the source throws only `std::runtime_error`. -/
theorem set_pos_rel_no_other (w : WavpackInput) (delta mode : Int)
    (h : w.is.seekThrows ≠ some CxxException.otherException) :
    ∃ r, wavpack_input_set_pos_rel w delta mode = Except.ok r := by
  unfold wavpack_input_set_pos_rel LockSeek
  dsimp only
  by_cases h0 : mode = SEEK_SET
  · rw [if_pos h0]
    rcases hst : w.is.seekThrows with _ | e
    · exact ⟨_, rfl⟩
    · cases e
      · exact ⟨_, rfl⟩
      · exact absurd hst h
  · rw [if_neg h0]
    by_cases h1 : mode = SEEK_CUR
    · rw [if_pos h1]
      rcases hst : w.is.seekThrows with _ | e
      · exact ⟨_, rfl⟩
      · cases e
        · exact ⟨_, rfl⟩
        · exact absurd hst h
    · rw [if_neg h1]
      by_cases h2 : mode = SEEK_END
      · rw [if_pos h2]
        rcases hsz : w.is.size with _ | sz
        · exact ⟨_, rfl⟩
        · rcases hst : w.is.seekThrows with _ | e
          · exact ⟨_, rfl⟩
          · cases e
            · exact ⟨_, rfl⟩
            · exact absurd hst h
      · rw [if_neg h2]
        exact ⟨_, rfl⟩

/-- Helper: a thrown `std::runtime_error` makes the absolute seek return
`-1` leaving the adapter unchanged. -/
theorem set_pos_abs_runtime (w : WavpackInput) (pos : Nat)
    (h : w.is.seekThrows = some CxxException.runtimeError) :
    wavpack_input_set_pos_abs w pos = Except.ok (-1, w) := by
  unfold wavpack_input_set_pos_abs LockSeek
  rw [h]

/-- Helper: a thrown `std::runtime_error` makes the relative seek return
`-1` leaving the adapter unchanged. -/
theorem set_pos_rel_runtime (w : WavpackInput) (delta : Int)
    (h : w.is.seekThrows = some CxxException.runtimeError) :
    wavpack_input_set_pos_rel w delta SEEK_SET = Except.ok (-1, w) := by
  unfold wavpack_input_set_pos_rel LockSeek
  dsimp only
  rw [if_pos rfl, h]

/-- Claim C5 (amended): every `std::runtime_error` raised by the
underlying source during a seek is caught at the adapter boundary and
converted to the failure return `-1` with the state unchanged; as long as
the source throws nothing outside the `std::runtime_error` hierarchy, no
exception propagates through either seek callback. -/
theorem seek_runtime_error_caught (w : WavpackInput) (pos : Nat) (delta mode : Int)
    (h : w.is.seekThrows ≠ some CxxException.otherException) :
    (∃ r, wavpack_input_set_pos_abs w pos = Except.ok r) ∧
    (∃ r, wavpack_input_set_pos_rel w delta mode = Except.ok r) ∧
    (w.is.seekThrows = some CxxException.runtimeError →
      wavpack_input_set_pos_abs w pos = Except.ok (-1, w) ∧
      wavpack_input_set_pos_rel w delta SEEK_SET = Except.ok (-1, w)) :=
  ⟨set_pos_abs_no_other w pos h, set_pos_rel_no_other w delta mode h,
   fun hrt => ⟨set_pos_abs_runtime w pos hrt, set_pos_rel_runtime w delta hrt⟩⟩

/-- Witness for `seek_runtime_error_caught` on a source that throws
`std::runtime_error`. -/
theorem seek_runtime_error_caught_witness :
    (∃ r, wavpack_input_set_pos_abs runtimeThrowInput 3 = Except.ok r) ∧
    (∃ r, wavpack_input_set_pos_rel runtimeThrowInput 0 SEEK_CUR = Except.ok r) ∧
    (runtimeThrowInput.is.seekThrows = some CxxException.runtimeError →
      wavpack_input_set_pos_abs runtimeThrowInput 3 = Except.ok (-1, runtimeThrowInput) ∧
      wavpack_input_set_pos_rel runtimeThrowInput 0 SEEK_SET
        = Except.ok (-1, runtimeThrowInput)) :=
  seek_runtime_error_caught runtimeThrowInput 3 0 SEEK_CUR (by decide)

/-- Claim C6: a relative seek from the end of a source with unknown size
fails immediately with `-1`: no exception, no call to the underlying seek,
and the adapter and stream state (in particular the read position) are
returned unchanged. -/
theorem set_pos_rel_end_unknown_size_fails (w : WavpackInput) (delta : Int)
    (h : w.is.size = none) :
    wavpack_input_set_pos_rel w delta SEEK_END = Except.ok (-1, w) := by
  unfold wavpack_input_set_pos_rel
  dsimp only
  rw [if_neg (by unfold SEEK_END SEEK_SET; omega),
      if_neg (by unfold SEEK_END SEEK_CUR; omega),
      if_pos rfl, h]

/-- Witness for `set_pos_rel_end_unknown_size_fails`. -/
theorem set_pos_rel_end_unknown_size_fails_witness :
    wavpack_input_set_pos_rel unknownSizeInput (-5) SEEK_END
      = Except.ok (-1, unknownSizeInput) :=
  set_pos_rel_end_unknown_size_fails unknownSizeInput (-5) (by decide)

/-- Claim C7: the decode loop stops exactly when the library yields zero
samples or the host commands stop.  With a library stub yielding batches
[256, 256, 0] and a host that never issues a command, the driver submits
data exactly twice and terminates with no further interaction; a pending
STOP command ends the loop before any work; and a zero-size first batch
means no submission ever happens. -/
theorem decode_loop_stop_conditions :
    (wavpack_decode_loop true true DecoderCommand.NONE [256, 256, 0]
        [DecoderCommand.NONE, DecoderCommand.NONE]
      = [DecodeEvent.submitData 256, DecodeEvent.submitData 256]) ∧
    (∀ (cs sOk : Bool) (batches : List Nat) (cmds : List DecoderCommand),
      wavpack_decode_loop cs sOk DecoderCommand.STOP batches cmds = []) ∧
    (∀ (cs sOk : Bool) (cmd : DecoderCommand) (rest : List Nat)
        (cmds : List DecoderCommand) (n : Nat),
      (wavpack_decode_loop cs sOk cmd (0 :: rest) cmds).count
        (DecodeEvent.submitData n) = 0) := by
  refine ⟨by decide, ?_, ?_⟩
  · intro cs sOk batches cmds
    cases batches <;> simp [wavpack_decode_loop]
  · intro cs sOk cmd rest cmds n
    unfold wavpack_decode_loop
    by_cases hstop : cmd = DecoderCommand.STOP
    · rw [if_pos hstop]
      rfl
    · rw [if_neg hstop, if_pos rfl]
      rw [List.count_eq_zero]
      unfold seek_handling
      split
      · split
        · split <;> simp
        · simp
      · simp

/-- Claim C8: in each of the three session drivers, whenever the
decoding-library handle is opened it is closed exactly once, on every exit
path — normal completion, a decode error or exception (`d` ranges over
both outcomes), and the crash-free companion cases of the stream driver;
when the open itself fails no close happens (there is no handle). -/
theorem handle_released_once (openUri : String → Option InputStreamState)
    (is : InputStreamState) (uri : Option String)
    (openOk : Bool) (d : Except Unit Unit) :
    ((wavpack_streamdecode openUri is uri openOk d).events.count SessionEvent.closeHandle
      = (wavpack_streamdecode openUri is uri openOk d).events.count SessionEvent.openHandle) ∧
    ((wavpack_streamdecode openUri is uri openOk d).events.count SessionEvent.openHandle
      = if openOk && (wavpack_open_wvc openUri uri).isNone then 1 else 0) ∧
    ((wavpack_filedecode_run openOk d).1.count SessionEvent.closeHandle
      = if openOk then 1 else 0) ∧
    ((wavpack_filedecode_run openOk d).1.count SessionEvent.openHandle
      = if openOk then 1 else 0) ∧
    ((wavpack_scan_file_run openOk).1.count SessionEvent.closeHandle
      = if openOk then 1 else 0) ∧
    ((wavpack_scan_file_run openOk).1.count SessionEvent.openHandle
      = if openOk then 1 else 0) := by
  unfold wavpack_streamdecode wavpack_filedecode_run wavpack_scan_file_run
  rcases hwvc : wavpack_open_wvc openUri uri with _ | s
  · cases openOk <;> simp [List.count_cons]
  · cases openOk <;> simp [List.count_cons]

/-- Claim C9: when the 64-bit offset or known size exceeds `2^32 - 1`,
the `uint32_t` callbacks `wavpack_input_get_pos` and
`wavpack_input_get_length` return the value reduced modulo `2^32`, hence
a value strictly below `2^32` that differs from the true 64-bit one. -/
theorem get_pos_length_truncate_mod32 (w : WavpackInput) (n : Nat)
    (h1 : U32_MOD ≤ w.is.offset) (h2 : w.is.size = some n) (h3 : U32_MOD ≤ n) :
    wavpack_input_get_pos w = w.is.offset % U32_MOD ∧
    wavpack_input_get_pos w < U32_MOD ∧
    wavpack_input_get_pos w ≠ w.is.offset ∧
    wavpack_input_get_length w = n % U32_MOD ∧
    wavpack_input_get_length w < U32_MOD ∧
    wavpack_input_get_length w ≠ n := by
  have hu : 0 < U32_MOD := by
    unfold U32_MOD
    positivity
  have hpm : w.is.offset % U32_MOD < U32_MOD := Nat.mod_lt _ hu
  have hlm : n % U32_MOD < U32_MOD := Nat.mod_lt _ hu
  have hglen : wavpack_input_get_length w = n % U32_MOD := by
    unfold wavpack_input_get_length
    rw [h2]
  refine ⟨rfl, ?_, ?_, hglen, ?_, ?_⟩
  · exact hpm
  · unfold wavpack_input_get_pos
    omega
  · rw [hglen]
    exact hlm
  · rw [hglen]
    omega

/-- Witness for `get_pos_length_truncate_mod32` at offset `2^32 + 5` and
size `2^32 + 7`. -/
theorem get_pos_length_truncate_mod32_witness :
    wavpack_input_get_pos hugeOffsetInput = hugeOffsetInput.is.offset % U32_MOD ∧
    wavpack_input_get_pos hugeOffsetInput < U32_MOD ∧
    wavpack_input_get_pos hugeOffsetInput ≠ hugeOffsetInput.is.offset ∧
    wavpack_input_get_length hugeOffsetInput = (2 ^ 32 + 7) % U32_MOD ∧
    wavpack_input_get_length hugeOffsetInput < U32_MOD ∧
    wavpack_input_get_length hugeOffsetInput ≠ 2 ^ 32 + 7 :=
  get_pos_length_truncate_mod32 hugeOffsetInput (2 ^ 32 + 7)
    (by decide) (by decide) (by decide)

/-- Claim C10: pushing the `EOF` sentinel (-1) into an empty slot takes
the success branch, but the observable outcome equals the rejection one:
the returned value is the rejected sentinel `EOF` and the slot still holds
`EOF`, i.e. remains empty — the value -1 can never actually be buffered
because slot emptiness is encoded by the stored value being `EOF`. -/
theorem push_back_eof_keeps_slot_empty (w : WavpackInput)
    (h : w.last_byte = EOF) :
    wavpack_input_push_back_byte w EOF = (EOF, w) ∧
    (wavpack_input_push_back_byte w EOF).2.last_byte = EOF := by
  have hpush : wavpack_input_push_back_byte w EOF = (EOF, { w with last_byte := EOF }) := by
    unfold wavpack_input_push_back_byte
    rw [if_pos h]
  have hfix : ({ w with last_byte := EOF } : WavpackInput) = w := by
    rw [← h]
  rw [hpush, hfix]
  exact ⟨rfl, h⟩

/-- Witness for `push_back_eof_keeps_slot_empty` over an adapter with an
empty slot. -/
theorem push_back_eof_keeps_slot_empty_witness :
    wavpack_input_push_back_byte emptySlotInput EOF = (EOF, emptySlotInput) ∧
    (wavpack_input_push_back_byte emptySlotInput EOF).2.last_byte = EOF :=
  push_back_eof_keeps_slot_empty emptySlotInput (by decide)

end Wavpack
